import Mathlib

/-!
Shallow embedding of two adapters of the OpenLLM repository:

* `openllm/_quantisation.py` — `infer_quantisation_config`, which maps a
  requested quantisation mode plus free-form keyword overrides to a
  quantisation configuration object and the residual keyword arguments;
* `openllm_core/config/configuration_dolly_v2.py` — the Dolly-v2 model
  configuration: the default prompt template, `get_special_token_id`,
  `DollyV2Config.sanitize_parameters` and `DollyV2Config.postprocess_generate`.

Python values threaded through the keyword-override mapping are dynamically
typed; they are embedded as the inductive `Value`.  Python floats that the
code only stores and returns (never computes with) are embedded as exact
rationals.  Python dicts are embedded as association lists in insertion
order with unique keys (`keysNodup`).  Fallible code returns `Except`.
-/

namespace OpenLLM

/-- A dynamically typed Python value as it occurs in the keyword-override
mappings of this code: ints, floats (stored, never computed with — embedded
as exact rationals), bools, strings, lists of strings, `None`, and torch
dtypes (identified by name, e.g. `torch.bfloat16`). -/
inductive Value
  | vnat (n : Nat)
  | vrat (q : ℚ)
  | vbool (b : Bool)
  | vstr (s : String)
  | vlist (l : List String)
  | vnone
  | vdtype (tyname : String)
deriving DecidableEq

/-- A Python keyword-argument dict: an association list in insertion order.
Python dicts have unique keys; theorems that need this assume `keysNodup`. -/
abbrev Attrs := List (String × Value)

/-- `attrs.pop(key, default)`: the value bound to `key` (or `default` when
absent) together with the dict with that binding removed. -/
def pop : Attrs → String → Value → Value × Attrs
  | [], _, d => (d, [])
  | (k', v) :: rest, k, d =>
    if k' == k then (v, rest)
    else
      let r := pop rest k d
      (r.1, (k', v) :: r.2)

/-- `attrs.get(key)`: the value bound to the first occurrence of `key`. -/
def lookupVal : Attrs → String → Option Value
  | [], _ => Option.none
  | (k', v) :: rest, k => if k' == k then some v else lookupVal rest k

/-- `key in attrs`. -/
def hasKey (attrs : Attrs) (k : String) : Bool := (lookupVal attrs k).isSome

/-- Python dict invariant: keys are pairwise distinct. -/
abbrev keysNodup (attrs : Attrs) : Prop := (attrs.map Prod.fst).Nodup

/-- Substring test on the underlying character lists: `hasSub pat l` is true
iff `pat` occurs contiguously inside `l`. -/
def hasSub (pat : List Char) : List Char → Bool
  | [] => pat.isEmpty
  | c :: rest => pat.isPrefixOf (c :: rest) || hasSub pat rest

/-- `pat` occurs as a contiguous substring of `s`. -/
abbrev containsSub (s pat : String) : Prop := hasSub pat.data s.data = true

/-! ## `openllm/_quantisation.py` -/

/-- The exceptions `infer_quantisation_config` raises: `RuntimeError` (the
unconditional bitsandbytes check), `MissingDependencyError` (missing gptq/awq
backends) and `ValueError` (unknown mode), each carrying its message. -/
inductive QuantError
  | runtimeError (msg : String)
  | missingDependency (msg : String)
  | valueError (msg : String)
deriving DecidableEq

/-- The message of the `RuntimeError` raised when bitsandbytes is missing. -/
def bnbMissingMsg : String :=
  "Quantization requires bitsandbytes to be installed. Make sure to install OpenLLM with 'pip install \"openllm[fine-tune]\"'"

/-- The message of the `MissingDependencyError` raised on the gptq branch. -/
def gptqMissingMsg : String :=
  "'quantize=\"gptq\"' requires 'auto-gptq' and 'optimum>=0.12' to be installed (missing or failed to import). Make sure to do 'pip install \"openllm[gptq]\"'"

/-- The message of the `MissingDependencyError` raised on the awq branch. -/
def awqMissingMsg : String :=
  "quantize='awq' requires 'auto-awq' to be installed (missing or failed to import). Make sure to do 'pip install \"openllm[awq]\"'."

/-- The message of the `ValueError` raised for an unknown quantisation mode
(the f-string interpolates the requested mode). -/
def invalidModeMsg (quantise : String) : String :=
  "'quantize' must be one of ['int8', 'int4', 'gptq', 'awq'], got " ++ quantise ++ " instead."

/-- The four configuration shapes `infer_quantisation_config` constructs, one
per accepted mode, with the exact keyword arguments the code passes to the
transformers constructors (field order = call order in the source; the int8
variant keeps the source's misspelt keyword `llm_int8_threshhold`). -/
inductive QuantConfig
  | bnbInt8 (load_in_8bit llm_int8_enable_fp32_cpu_offload llm_int8_threshhold
      llm_int8_skip_modules llm_int8_has_fp16_weight : Value)
  | bnbInt4 (load_in_4bit bnb_4bit_compute_dtype bnb_4bit_quant_type
      bnb_4bit_use_double_quant : Value)
  | gptq (bits tokenizer dataset group_size damp_percent desc_act sym
      true_sequential use_cuda_fp16 model_seqlen block_name_to_quantize
      module_name_preceding_first_block batch_size pad_token_id
      disable_exllama : Value)
  | awq (bits group_size zero_point : Value)
deriving DecidableEq

/-- `infer_quantisation_config(self, quantise, **attrs)`.  Environment facts
the Python code reads are explicit parameters: `model_id` (`self.model_id`),
the availability flags `bnb` (`is_bitsandbytes_available()`), `gptqAvail`
(`is_autogptq_available()`), `optimumGptq` (`is_optimum_supports_gptq()`),
`awqAvail` (`is_autoawq_available()`) and `cudaAvail`
(`torch.cuda.is_available()`).  The pops before the branching mirror the
source line by line: the int8 keys, the shared `bits`/`group_size`, then the
int4 keys are popped unconditionally; the gptq and awq keys are popped only
inside their branch (the source's closures run there). -/
def infer_quantisation_config (model_id : String)
    (bnb gptqAvail optimumGptq awqAvail cudaAvail : Bool)
    (quantise : String) (attrs0 : Attrs) :
    Except QuantError (QuantConfig × Attrs) :=
  let r1 := pop attrs0 "llm_int8_threshhold" (Value.vrat 6)
  let int8_threshold := r1.1
  let r2 := pop r1.2 "llm_int8_enable_fp32_cpu_offload" (Value.vbool false)
  let int8_enable_fp32_cpu_offload := r2.1
  let r3 := pop r2.2 "llm_int8_skip_modules" Value.vnone
  let int8_skip_modules := r3.1
  let r4 := pop r3.2 "llm_int8_has_fp16_weight" (Value.vbool false)
  let int8_has_fp16_weight := r4.1
  let r5 := pop r4.2 "bits" (Value.vnat 4)
  let bits := r5.1
  let r6 := pop r5.2 "group_size" (Value.vnat 128)
  let group_size := r6.1
  let r7 := pop r6.2 "bnb_4bit_compute_dtype" (Value.vdtype "bfloat16")
  let int4_compute_dtype := r7.1
  let r8 := pop r7.2 "bnb_4bit_quant_type" (Value.vstr "nf4")
  let int4_quant_type := r8.1
  let r9 := pop r8.2 "bnb_4bit_use_double_quant" (Value.vbool true)
  let int4_use_double_quant := r9.1
  let attrs := r9.2
  if !bnb then
    Except.error (QuantError.runtimeError bnbMissingMsg)
  else if quantise == "int8" then
    Except.ok (QuantConfig.bnbInt8 (Value.vbool true) int8_enable_fp32_cpu_offload
      int8_threshold int8_skip_modules int8_has_fp16_weight, attrs)
  else if quantise == "int4" then
    Except.ok (QuantConfig.bnbInt4 (Value.vbool true) int4_compute_dtype
      int4_quant_type int4_use_double_quant, attrs)
  else if quantise == "gptq" then
    if !gptqAvail || !optimumGptq then
      Except.error (QuantError.missingDependency gptqMissingMsg)
    else
      let g1 := pop attrs "tokenizer" (Value.vstr model_id)
      let g2 := pop g1.2 "dataset" (Value.vstr "c4")
      let g3 := pop g2.2 "damp_percent" (Value.vrat (1/10))
      let g4 := pop g3.2 "desc_act" (Value.vbool false)
      let g5 := pop g4.2 "sym" (Value.vbool true)
      let g6 := pop g5.2 "true_sequential" (Value.vbool true)
      let g7 := pop g6.2 "use_cuda_fp16" (Value.vbool cudaAvail)
      let g8 := pop g7.2 "model_seqlen" Value.vnone
      let g9 := pop g8.2 "block_name_to_quantize" Value.vnone
      let g10 := pop g9.2 "module_name_preceding_first_block" Value.vnone
      let g11 := pop g10.2 "batch_size" (Value.vnat 1)
      let g12 := pop g11.2 "pad_token_id" Value.vnone
      let g13 := pop g12.2 "disable_exllama" (Value.vbool false)
      Except.ok (QuantConfig.gptq bits g1.1 g2.1 group_size g3.1 g4.1 g5.1
        g6.1 g7.1 g8.1 g9.1 g10.1 g11.1 g12.1 g13.1, g13.2)
  else if quantise == "awq" then
    if !awqAvail then
      Except.error (QuantError.missingDependency awqMissingMsg)
    else
      let a1 := pop attrs "zero_point" (Value.vbool true)
      Except.ok (QuantConfig.awq bits group_size a1.1, a1.2)
  else
    Except.error (QuantError.valueError (invalidModeMsg quantise))

/-- Popping each key of a list in turn (used to state the pop-chain lemma). -/
def popEach : Attrs → List (String × Value) → Attrs
  | a, [] => a
  | a, (k, d) :: ks => popEach (pop a k d).2 ks

/-- Whether the call returned a configuration (no exception). -/
def quantOk : Except QuantError (QuantConfig × Attrs) → Bool
  | Except.ok _ => true
  | Except.error _ => false

/-- The leftover keyword-override mapping of a successful call. -/
def leftoverOf : Except QuantError (QuantConfig × Attrs) → Attrs
  | Except.ok (_, a) => a
  | Except.error _ => []

/-- The keys `infer_quantisation_config` pops unconditionally before
branching: the int8 keys, the shared `bits`/`group_size`, the int4 keys. -/
def consumedCommonKeys : List String :=
  ["llm_int8_threshhold", "llm_int8_enable_fp32_cpu_offload",
   "llm_int8_skip_modules", "llm_int8_has_fp16_weight", "bits", "group_size",
   "bnb_4bit_compute_dtype", "bnb_4bit_quant_type", "bnb_4bit_use_double_quant"]

/-- The keys consumed when the gptq branch is chosen. -/
def consumedGptqKeys : List String :=
  consumedCommonKeys ++
  ["tokenizer", "dataset", "damp_percent", "desc_act", "sym",
   "true_sequential", "use_cuda_fp16", "model_seqlen",
   "block_name_to_quantize", "module_name_preceding_first_block",
   "batch_size", "pad_token_id", "disable_exllama"]

/-- The keys consumed when the awq branch is chosen. -/
def consumedAwqKeys : List String := consumedCommonKeys ++ ["zero_point"]

/-! ## `openllm_core/config/configuration_dolly_v2.py` -/

/-- `INSTRUCTION_KEY`. -/
def INSTRUCTION_KEY : String := "### Instruction:"

/-- `RESPONSE_KEY`. -/
def RESPONSE_KEY : String := "### Response:"

/-- `END_KEY`. -/
def END_KEY : String := "### End"

/-- `INTRO_BLURB`. -/
def INTRO_BLURB : String :=
  "Below is an instruction that describes a task. Write a response that appropriately completes the request."

/-- `DEFAULT_PROMPT_TEMPLATE` with its sole `instruction` placeholder applied:
the source's triple-quoted format string is intro, instruction key,
instruction, response key, each on its own line, with a trailing newline. -/
def DEFAULT_PROMPT_TEMPLATE (instruction : String) : String :=
  INTRO_BLURB ++ "\n" ++ INSTRUCTION_KEY ++ "\n" ++ instruction ++ "\n" ++ RESPONSE_KEY ++ "\n"

/-- Modelled from the spec: `process_prompt` is imported from
`openllm_core._prompt`, which is not in the sources.  Per the spec
(section 4.1), when template application is requested it wraps the
instruction inside the fixed template, otherwise it passes the instruction
through unchanged. -/
def process_prompt (prompt : String) (template : String → String)
    (use_default : Bool) : String :=
  if use_default then template prompt else prompt

/-- The error `get_special_token_id` can raise: the `ValueError` whose message
names the marker and the ids obtained (`Expected only a single token for
key but found token_ids`), or the `IndexError` from `token_ids[0]` on an
empty encoding. -/
inductive TokenErr
  | validation (key : String) (ids : List Nat)
  | indexError
deriving DecidableEq

/-- `get_special_token_id(tokenizer, key)`: the tokenizer is embedded as its
`encode` function.  The guard raises only when more than one id was produced;
`token_ids[0]` on an empty encoding is the `IndexError`. -/
def get_special_token_id (encode : String → List Nat) (key : String) :
    Except TokenErr Nat :=
  let token_ids := encode key
  if token_ids.length > 1 then Except.error (TokenErr.validation key token_ids)
  else
    match token_ids with
    | [] => Except.error TokenErr.indexError
    | i :: _ => Except.ok i

/-- Python `None` for an absent keyword override (`max_new_tokens: int | None = None`). -/
def optVal : Option Value → Value
  | Option.none => Value.vnone
  | some v => v

/-- A Python dict literal `{k1: v1, ..., **extra}`: the literal entries in
order, each overridden in place by `extra` when `extra` binds its key, then
the entries of `extra` whose keys are new, appended in order. -/
def dictUpdate (base extra : Attrs) : Attrs :=
  base.map (fun kv =>
    match lookupVal extra kv.1 with
    | some v => (kv.1, v)
    | Option.none => kv) ++
  extra.filter (fun kv => !(hasKey base kv.1))

/-- `DollyV2Config.sanitize_parameters(prompt, max_new_tokens, temperature,
top_k, top_p, use_default_prompt_template, **attrs)`: the formatted prompt,
the generation-parameter dict literal (`max_new_tokens`, `top_k`, `top_p`,
`temperature`, merged with `**attrs`), and the empty model-load dict. -/
def sanitize_parameters (prompt : String)
    (max_new_tokens temperature top_k top_p : Option Value)
    (use_default_prompt_template : Bool) (attrs : Attrs) :
    String × Attrs × Attrs :=
  (process_prompt prompt DEFAULT_PROMPT_TEMPLATE use_default_prompt_template,
   dictUpdate
     [("max_new_tokens", optVal max_new_tokens), ("top_k", optVal top_k),
      ("top_p", optVal top_p), ("temperature", optVal temperature)] attrs,
   [])

/-- One element of the generation result list: a dict with the single literal
key `generated_text` (the source's type annotation). -/
structure GenEntry where
  generated_text : String
deriving DecidableEq

/-- `DollyV2Config.postprocess_generate(prompt, generation_result, **_)`:
`generation_result[0]['generated_text']`; indexing an empty list is the
caller's contract violation, embedded as `Option.none`. -/
def postprocess_generate (_prompt : String) (generation_result : List GenEntry) :
    Option String :=
  generation_result.head?.map GenEntry.generated_text

/-! ## Helper lemmas -/

theorem hasSub_iff_occurs (pat l : List Char) : hasSub pat l = true ↔ pat <:+: l := by
  induction l with
  | nil => simp [hasSub, List.isEmpty_iff]
  | cons c rest ih =>
      simp [hasSub, List.infix_cons_iff, ih, List.isPrefixOf_iff_prefix]

theorem containsSub_of_data_eq {s pat : String} (pre post : List Char)
    (h : s.data = pre ++ pat.data ++ post) : containsSub s pat := by
  show hasSub pat.data s.data = true
  rw [hasSub_iff_occurs, h]
  exact ⟨pre, post, by simp⟩

theorem containsSub_intro (pre pat post : String) : containsSub (pre ++ pat ++ post) pat :=
  containsSub_of_data_eq pre.data post.data (by simp)

theorem pop_snd_eq_filter (attrs : Attrs) (k : String) (d : Value)
    (h : keysNodup attrs) :
    (pop attrs k d).2 = attrs.filter (fun kv => !(kv.1 == k)) := by
  induction attrs with
  | nil => rfl
  | cons kv rest ih =>
      obtain ⟨k', v⟩ := kv
      have hrest : keysNodup rest := (List.nodup_cons.mp h).2
      by_cases hk : k' == k
      · have hkk : k' = k := by simpa using hk
        have hnot : k ∉ rest.map Prod.fst := hkk ▸ (List.nodup_cons.mp h).1
        have : rest.filter (fun kv => !(kv.1 == k)) = rest := by
          apply List.filter_eq_self.mpr
          intro a ha
          have : a.1 ≠ k := fun e => hnot (e ▸ List.mem_map_of_mem Prod.fst ha)
          simpa using this
        simp [pop, hk, List.filter_cons, this]
      · simp [pop, hk, List.filter_cons, ih hrest]

theorem keysNodup_filter (attrs : Attrs) (p : String × Value → Bool)
    (h : keysNodup attrs) : keysNodup (attrs.filter p) :=
  h.sublist ((List.filter_sublist attrs).map Prod.fst)

theorem lookupVal_none_beq (attrs : Attrs) (k : String)
    (h : lookupVal attrs k = Option.none) :
    ∀ kv ∈ attrs, (kv.1 == k) = false := by
  induction attrs with
  | nil => intro kv hkv; cases hkv
  | cons hd rest ih =>
      intro kv hkv
      obtain ⟨k', v⟩ := hd
      by_cases hk : k' == k
      · simp [lookupVal, hk] at h
      · rcases List.mem_cons.mp hkv with hkv | hkv
        · simpa [hkv] using hk
        · exact ih (by simpa [lookupVal, hk] using h) kv hkv

theorem popEach_eq_filter (ks : List (String × Value)) (a : Attrs)
    (h : keysNodup a) :
    popEach a ks = a.filter (fun kv => !((ks.map Prod.fst).contains kv.1)) := by
  induction ks generalizing a with
  | nil => simp [popEach]
  | cons kd ks ih =>
      obtain ⟨k, d⟩ := kd
      have hp := pop_snd_eq_filter a k d h
      have hn : keysNodup (pop a k d).2 := hp ▸ keysNodup_filter a _ h
      rw [popEach, ih _ hn, hp, List.filter_filter]
      apply List.filter_congr
      intro kv _
      simp [Bool.not_or, Bool.and_comm]

/-! ## Claim theorems -/

/-- C1: for every quantisation mode in {int8, int4, gptq, awq} and every
keyword-override mapping, when bitsandbytes is unavailable
`infer_quantisation_config` fails immediately with the dependency
`RuntimeError` naming bitsandbytes, whatever the other availability flags
and the requested mode. -/
theorem infer_quantisation_config_bnb_gate (model_id : String)
    (gA oA aA cA : Bool) (attrs : Attrs) :
    (infer_quantisation_config model_id false gA oA aA cA "int8" attrs =
      Except.error (QuantError.runtimeError bnbMissingMsg)) ∧
    (infer_quantisation_config model_id false gA oA aA cA "int4" attrs =
      Except.error (QuantError.runtimeError bnbMissingMsg)) ∧
    (infer_quantisation_config model_id false gA oA aA cA "gptq" attrs =
      Except.error (QuantError.runtimeError bnbMissingMsg)) ∧
    (infer_quantisation_config model_id false gA oA aA cA "awq" attrs =
      Except.error (QuantError.runtimeError bnbMissingMsg)) ∧
    containsSub bnbMissingMsg "bitsandbytes" :=
  ⟨rfl, rfl, rfl, rfl, by decide⟩

/-- C2 (amended): every success path returns the configuration together with
the input overrides minus all keys popped on the way there: the nine
unconditionally popped keys (int8 keys, `bits`, `group_size`, int4 keys)
are consumed whatever the mode, and the chosen branch's own keys on top of
that; all other overrides are returned unchanged. -/
theorem infer_quantisation_config_leftovers (model_id : String) (cA : Bool)
    (attrs : Attrs) (h : keysNodup attrs) :
    (quantOk (infer_quantisation_config model_id true true true true cA "int8" attrs) = true ∧
     leftoverOf (infer_quantisation_config model_id true true true true cA "int8" attrs) =
       attrs.filter (fun kv => !(consumedCommonKeys.contains kv.1))) ∧
    (quantOk (infer_quantisation_config model_id true true true true cA "int4" attrs) = true ∧
     leftoverOf (infer_quantisation_config model_id true true true true cA "int4" attrs) =
       attrs.filter (fun kv => !(consumedCommonKeys.contains kv.1))) ∧
    (quantOk (infer_quantisation_config model_id true true true true cA "gptq" attrs) = true ∧
     leftoverOf (infer_quantisation_config model_id true true true true cA "gptq" attrs) =
       attrs.filter (fun kv => !(consumedGptqKeys.contains kv.1))) ∧
    (quantOk (infer_quantisation_config model_id true true true true cA "awq" attrs) = true ∧
     leftoverOf (infer_quantisation_config model_id true true true true cA "awq" attrs) =
       attrs.filter (fun kv => !(consumedAwqKeys.contains kv.1))) := by
  refine ⟨⟨rfl, ?_⟩, ⟨rfl, ?_⟩, ⟨rfl, ?_⟩, ⟨rfl, ?_⟩⟩
  · show popEach attrs
      [("llm_int8_threshhold", Value.vrat 6),
       ("llm_int8_enable_fp32_cpu_offload", Value.vbool false),
       ("llm_int8_skip_modules", Value.vnone),
       ("llm_int8_has_fp16_weight", Value.vbool false),
       ("bits", Value.vnat 4), ("group_size", Value.vnat 128),
       ("bnb_4bit_compute_dtype", Value.vdtype "bfloat16"),
       ("bnb_4bit_quant_type", Value.vstr "nf4"),
       ("bnb_4bit_use_double_quant", Value.vbool true)] = _
    rw [popEach_eq_filter _ _ h]
    simp [consumedCommonKeys]
  · show popEach attrs
      [("llm_int8_threshhold", Value.vrat 6),
       ("llm_int8_enable_fp32_cpu_offload", Value.vbool false),
       ("llm_int8_skip_modules", Value.vnone),
       ("llm_int8_has_fp16_weight", Value.vbool false),
       ("bits", Value.vnat 4), ("group_size", Value.vnat 128),
       ("bnb_4bit_compute_dtype", Value.vdtype "bfloat16"),
       ("bnb_4bit_quant_type", Value.vstr "nf4"),
       ("bnb_4bit_use_double_quant", Value.vbool true)] = _
    rw [popEach_eq_filter _ _ h]
    simp [consumedCommonKeys]
  · show popEach attrs
      [("llm_int8_threshhold", Value.vrat 6),
       ("llm_int8_enable_fp32_cpu_offload", Value.vbool false),
       ("llm_int8_skip_modules", Value.vnone),
       ("llm_int8_has_fp16_weight", Value.vbool false),
       ("bits", Value.vnat 4), ("group_size", Value.vnat 128),
       ("bnb_4bit_compute_dtype", Value.vdtype "bfloat16"),
       ("bnb_4bit_quant_type", Value.vstr "nf4"),
       ("bnb_4bit_use_double_quant", Value.vbool true),
       ("tokenizer", Value.vstr model_id), ("dataset", Value.vstr "c4"),
       ("damp_percent", Value.vrat (1/10)), ("desc_act", Value.vbool false),
       ("sym", Value.vbool true), ("true_sequential", Value.vbool true),
       ("use_cuda_fp16", Value.vbool cA), ("model_seqlen", Value.vnone),
       ("block_name_to_quantize", Value.vnone),
       ("module_name_preceding_first_block", Value.vnone),
       ("batch_size", Value.vnat 1), ("pad_token_id", Value.vnone),
       ("disable_exllama", Value.vbool false)] = _
    rw [popEach_eq_filter _ _ h]
    simp [consumedGptqKeys, consumedCommonKeys]
  · show popEach attrs
      [("llm_int8_threshhold", Value.vrat 6),
       ("llm_int8_enable_fp32_cpu_offload", Value.vbool false),
       ("llm_int8_skip_modules", Value.vnone),
       ("llm_int8_has_fp16_weight", Value.vbool false),
       ("bits", Value.vnat 4), ("group_size", Value.vnat 128),
       ("bnb_4bit_compute_dtype", Value.vdtype "bfloat16"),
       ("bnb_4bit_quant_type", Value.vstr "nf4"),
       ("bnb_4bit_use_double_quant", Value.vbool true),
       ("zero_point", Value.vbool true)] = _
    rw [popEach_eq_filter _ _ h]
    simp [consumedAwqKeys, consumedCommonKeys]

/-- C2 counterexample: with mode gptq, the int8-only override
`llm_int8_threshhold` is consumed by the unconditional pops and is NOT
returned in the leftover mapping (which here is empty), contradicting the
claim that an override belonging only to a different branch is returned
unconsumed. -/
theorem infer_quantisation_config_leftovers_counterexample :
    infer_quantisation_config "m" true true true true false "gptq"
      [("llm_int8_threshhold", Value.vrat 5)] =
    Except.ok (QuantConfig.gptq (Value.vnat 4) (Value.vstr "m") (Value.vstr "c4")
      (Value.vnat 128) (Value.vrat (1/10)) (Value.vbool false) (Value.vbool true)
      (Value.vbool true) (Value.vbool false) Value.vnone Value.vnone Value.vnone
      (Value.vnat 1) Value.vnone (Value.vbool false), []) := rfl

/-- C2 witness: a mapping with an unrecognized key and a shared key; the
unrecognized key survives in every mode, `bits` never does. -/
theorem infer_quantisation_config_leftovers_witness :
    keysNodup [("repetition_penalty", Value.vnat 1), ("bits", Value.vnat 8)] ∧
    ((quantOk (infer_quantisation_config "m" true true true true false "int8"
        [("repetition_penalty", Value.vnat 1), ("bits", Value.vnat 8)]) = true ∧
      leftoverOf (infer_quantisation_config "m" true true true true false "int8"
        [("repetition_penalty", Value.vnat 1), ("bits", Value.vnat 8)]) =
        [("repetition_penalty", Value.vnat 1), ("bits", Value.vnat 8)].filter
          (fun kv => !(consumedCommonKeys.contains kv.1))) ∧
    (quantOk (infer_quantisation_config "m" true true true true false "int4"
        [("repetition_penalty", Value.vnat 1), ("bits", Value.vnat 8)]) = true ∧
      leftoverOf (infer_quantisation_config "m" true true true true false "int4"
        [("repetition_penalty", Value.vnat 1), ("bits", Value.vnat 8)]) =
        [("repetition_penalty", Value.vnat 1), ("bits", Value.vnat 8)].filter
          (fun kv => !(consumedCommonKeys.contains kv.1))) ∧
    (quantOk (infer_quantisation_config "m" true true true true false "gptq"
        [("repetition_penalty", Value.vnat 1), ("bits", Value.vnat 8)]) = true ∧
      leftoverOf (infer_quantisation_config "m" true true true true false "gptq"
        [("repetition_penalty", Value.vnat 1), ("bits", Value.vnat 8)]) =
        [("repetition_penalty", Value.vnat 1), ("bits", Value.vnat 8)].filter
          (fun kv => !(consumedGptqKeys.contains kv.1))) ∧
    (quantOk (infer_quantisation_config "m" true true true true false "awq"
        [("repetition_penalty", Value.vnat 1), ("bits", Value.vnat 8)]) = true ∧
      leftoverOf (infer_quantisation_config "m" true true true true false "awq"
        [("repetition_penalty", Value.vnat 1), ("bits", Value.vnat 8)]) =
        [("repetition_penalty", Value.vnat 1), ("bits", Value.vnat 8)].filter
          (fun kv => !(consumedAwqKeys.contains kv.1)))) :=
  ⟨by decide,
   infer_quantisation_config_leftovers "m" false
     [("repetition_penalty", Value.vnat 1), ("bits", Value.vnat 8)] (by decide)⟩

/-- C3 counterexample: with no overrides given, the generation-parameter
mapping still binds `max_new_tokens` — to the null value — rather than
leaving the key absent as the claim states. -/
theorem sanitize_parameters_generation_params_counterexample :
    lookupVal (sanitize_parameters "p" Option.none Option.none Option.none
      Option.none true []).2.1 "max_new_tokens" = some Value.vnone := rfl

/-- C3 (amended): the generation-parameter mapping contains
`max_new_tokens`, `top_k`, `top_p` and `temperature` — each bound to the
caller's override when one is given and to the null value (present, not
absent) otherwise — followed by every additional unrecognized keyword
override unchanged. -/
theorem sanitize_parameters_generation_params (prompt : String)
    (mnt temp tk tp : Option Value) (b : Bool) (attrs : Attrs)
    (h1 : lookupVal attrs "max_new_tokens" = Option.none)
    (h2 : lookupVal attrs "top_k" = Option.none)
    (h3 : lookupVal attrs "top_p" = Option.none)
    (h4 : lookupVal attrs "temperature" = Option.none) :
    (sanitize_parameters prompt mnt temp tk tp b attrs).2.1 =
      ("max_new_tokens", optVal mnt) :: ("top_k", optVal tk) ::
      ("top_p", optVal tp) :: ("temperature", optVal temp) :: attrs := by
  show dictUpdate _ attrs = _
  rw [dictUpdate]
  simp only [List.map_cons, List.map_nil, h1, h2, h3, h4]
  have hf : attrs.filter (fun kv =>
      !(hasKey [("max_new_tokens", optVal mnt), ("top_k", optVal tk),
        ("top_p", optVal tp), ("temperature", optVal temp)] kv.1)) = attrs := by
    apply List.filter_eq_self.mpr
    intro kv hkv
    have e1 := lookupVal_none_beq attrs _ h1 kv hkv
    have e2 := lookupVal_none_beq attrs _ h2 kv hkv
    have e3 := lookupVal_none_beq attrs _ h3 kv hkv
    have e4 := lookupVal_none_beq attrs _ h4 kv hkv
    have n1 : kv.1 ≠ "max_new_tokens" := by simpa using e1
    have n2 : kv.1 ≠ "top_k" := by simpa using e2
    have n3 : kv.1 ≠ "top_p" := by simpa using e3
    have n4 : kv.1 ≠ "temperature" := by simpa using e4
    simp [hasKey, lookupVal, Ne.symm n1, Ne.symm n2, Ne.symm n3, Ne.symm n4]
  rw [hf]
  simp

/-- C3 witness: an explicit `max_new_tokens` override and one unrecognized
override, with the other three parameters left unset. -/
theorem sanitize_parameters_generation_params_witness :
    (lookupVal [("repetition_penalty", Value.vrat 2)] "max_new_tokens" = Option.none) ∧
    (lookupVal [("repetition_penalty", Value.vrat 2)] "top_k" = Option.none) ∧
    (lookupVal [("repetition_penalty", Value.vrat 2)] "top_p" = Option.none) ∧
    (lookupVal [("repetition_penalty", Value.vrat 2)] "temperature" = Option.none) ∧
    ((sanitize_parameters "p" (some (Value.vnat 10)) Option.none Option.none
        Option.none true [("repetition_penalty", Value.vrat 2)]).2.1 =
      ("max_new_tokens", optVal (some (Value.vnat 10))) :: ("top_k", optVal Option.none) ::
      ("top_p", optVal Option.none) :: ("temperature", optVal Option.none) ::
      [("repetition_penalty", Value.vrat 2)]) :=
  ⟨rfl, rfl, rfl, rfl,
   sanitize_parameters_generation_params "p" (some (Value.vnat 10)) Option.none
     Option.none Option.none true [("repetition_penalty", Value.vrat 2)]
     rfl rfl rfl rfl⟩

/-- C7 counterexample: the instruction is not immediately preceded by the
`### Instruction:` marker — a newline stands between them, so the prompt
built for instruction `x` does not contain the string `### Instruction:x`. -/
theorem sanitize_parameters_prompt_template_counterexample :
    ¬ containsSub (sanitize_parameters "x" Option.none Option.none Option.none
      Option.none true []).1 (INSTRUCTION_KEY ++ "x") := by decide

/-- C7 (amended): for every instruction and overrides, with
`use_default_prompt_template=true` the returned prompt contains the
instruction text on its own line: preceded by `### Instruction:` and a
newline, followed by a newline and `### Response:`. -/
theorem sanitize_parameters_prompt_template (instruction : String)
    (mnt temp tk tp : Option Value) (attrs : Attrs) :
    containsSub (sanitize_parameters instruction mnt temp tk tp true attrs).1
      (INSTRUCTION_KEY ++ "\n" ++ instruction ++ "\n" ++ RESPONSE_KEY) := by
  show containsSub (DEFAULT_PROMPT_TEMPLATE instruction) _
  have key : DEFAULT_PROMPT_TEMPLATE instruction =
      (INTRO_BLURB ++ "\n") ++
        (INSTRUCTION_KEY ++ "\n" ++ instruction ++ "\n" ++ RESPONSE_KEY) ++ "\n" := by
    rw [DEFAULT_PROMPT_TEMPLATE]
    simp only [String.append_assoc]
  rw [key]
  exact containsSub_intro _ _ _

/-- C8: for every tokenizer and marker: an encoding of more than one id
fails with the validation error carrying the marker and the ids obtained;
an encoding of exactly one id returns that sole id. -/
theorem get_special_token_id_spec (encode : String → List Nat) (key : String) :
    ((encode key).length > 1 →
      get_special_token_id encode key =
        Except.error (TokenErr.validation key (encode key))) ∧
    (∀ i, encode key = [i] →
      get_special_token_id encode key = Except.ok i) := by
  constructor
  · intro h
    simp [get_special_token_id, h]
  · intro i hi
    simp [get_special_token_id, hi]

/-- C8 witness: the marker `### End` encoding to the single id 50277
returns 50277. -/
theorem get_special_token_id_spec_witness :
    get_special_token_id (fun _ => [50277]) "### End" = Except.ok 50277 :=
  (get_special_token_id_spec (fun _ => [50277]) "### End").2 50277 rfl

/-- C9: the output of `postprocess_generate` does not depend on the prompt
argument, and on a non-empty result it is the `generated_text` field of the
first element. -/
theorem postprocess_generate_prompt_independent (p1 p2 : String)
    (r : List GenEntry) :
    postprocess_generate p1 r = postprocess_generate p2 r ∧
    ∀ hd tl, postprocess_generate p1 (hd :: tl) = some hd.generated_text :=
  ⟨rfl, fun _ _ => rfl⟩

/-- C10: on an empty encoding `get_special_token_id` fails with the index
error, not the validation error — that is, the validation guard covers only
the more-than-one-id case — and on a non-empty encoding the index error
never occurs. -/
theorem get_special_token_id_empty_encoding (encode : String → List Nat)
    (key : String) :
    (encode key = [] →
      get_special_token_id encode key = Except.error TokenErr.indexError) ∧
    (encode key ≠ [] →
      get_special_token_id encode key ≠ Except.error TokenErr.indexError) := by
  constructor
  · intro h
    simp [get_special_token_id, h]
  · intro h
    rcases he : encode key with _ | ⟨i, rest⟩
    · exact absurd he h
    · simp only [get_special_token_id, he]
      split
      · simp
      · simp

/-- C10 witness: a tokenizer whose encoding of `### End` is empty makes the
call fail with the index error. -/
theorem get_special_token_id_empty_encoding_witness :
    ((fun (_ : String) => ([] : List Nat)) "### End" = []) ∧
    get_special_token_id (fun _ => []) "### End" = Except.error TokenErr.indexError :=
  ⟨rfl, (get_special_token_id_empty_encoding (fun _ => []) "### End").1 rfl⟩

/-- C4: for every mode string outside the accepted set (with bitsandbytes
available, so that the mode validation is reached), `infer_quantisation_config`
raises the `ValueError` whose message enumerates exactly the accepted set
`['int8', 'int4', 'gptq', 'awq']`. -/
theorem infer_quantisation_config_unknown_mode (model_id : String)
    (gA oA aA cA : Bool) (quantise : String) (attrs : Attrs)
    (h : quantise ∉ (["int8", "int4", "gptq", "awq"] : List String)) :
    infer_quantisation_config model_id true gA oA aA cA quantise attrs =
      Except.error (QuantError.valueError (invalidModeMsg quantise)) ∧
    containsSub (invalidModeMsg quantise) "['int8', 'int4', 'gptq', 'awq']" := by
  have h1 : quantise ≠ "int8" := fun e => h (by simp [e])
  have h2 : quantise ≠ "int4" := fun e => h (by simp [e])
  have h3 : quantise ≠ "gptq" := fun e => h (by simp [e])
  have h4 : quantise ≠ "awq" := fun e => h (by simp [e])
  constructor
  · simp [infer_quantisation_config, h1, h2, h3, h4]
  · have key : invalidModeMsg quantise =
        ("'quantize' must be one of " ++ "['int8', 'int4', 'gptq', 'awq']") ++
          (", got " ++ quantise ++ " instead.") := by
      show ("'quantize' must be one of ['int8', 'int4', 'gptq', 'awq'], got " ++
        quantise) ++ " instead." = _
      rw [show ("'quantize' must be one of ['int8', 'int4', 'gptq', 'awq'], got " : String) =
        ("'quantize' must be one of " ++ "['int8', 'int4', 'gptq', 'awq']") ++ ", got "
        from rfl]
      simp only [String.append_assoc]
    rw [key]
    exact containsSub_intro _ _ _

/-- C4 witness: `infer_quantisation_config('unknown')` raises the
`ValueError` listing the accepted set. -/
theorem infer_quantisation_config_unknown_mode_witness :
    ("unknown" ∉ (["int8", "int4", "gptq", "awq"] : List String)) ∧
    (infer_quantisation_config "m" true true true true false "unknown" [] =
      Except.error (QuantError.valueError (invalidModeMsg "unknown")) ∧
    containsSub (invalidModeMsg "unknown") "['int8', 'int4', 'gptq', 'awq']") :=
  ⟨by decide,
   infer_quantisation_config_unknown_mode "m" true true true false "unknown" []
     (by decide)⟩

/-- C5: with bitsandbytes available, mode gptq and either of auto-gptq or
GPTQ-capable optimum unavailable, `infer_quantisation_config` raises a
`MissingDependencyError` whose message names both `auto-gptq` and
`optimum`. -/
theorem infer_quantisation_config_gptq_deps (model_id : String)
    (gA oA aA cA : Bool) (attrs : Attrs) (h : gA = false ∨ oA = false) :
    infer_quantisation_config model_id true gA oA aA cA "gptq" attrs =
      Except.error (QuantError.missingDependency gptqMissingMsg) ∧
    containsSub gptqMissingMsg "auto-gptq" ∧
    containsSub gptqMissingMsg "optimum" := by
  rcases h with h | h <;> subst h
  · exact ⟨rfl, by decide, by decide⟩
  · cases gA <;> exact ⟨rfl, by decide, by decide⟩

/-- C5 witness: mode gptq with auto-gptq missing raises the dependency error
naming auto-gptq and optimum. -/
theorem infer_quantisation_config_gptq_deps_witness :
    ((false : Bool) = false ∨ (true : Bool) = false) ∧
    (infer_quantisation_config "m" true false true true false "gptq" [] =
      Except.error (QuantError.missingDependency gptqMissingMsg) ∧
    containsSub gptqMissingMsg "auto-gptq" ∧
    containsSub gptqMissingMsg "optimum") :=
  ⟨Or.inl rfl,
   infer_quantisation_config_gptq_deps "m" false true true false []
     (Or.inl rfl)⟩

/-- C6: mode int8 with no overrides yields `load_in_8bit=True` with the
outlier threshold defaulting to 6.0; overriding `llm_int8_threshhold=5.0`
is reflected in the returned configuration. -/
theorem infer_quantisation_config_int8_defaults :
    (infer_quantisation_config "databricks/dolly-v2-3b" true false false false
        false "int8" [] =
      Except.ok (QuantConfig.bnbInt8 (Value.vbool true) (Value.vbool false)
        (Value.vrat 6) Value.vnone (Value.vbool false), [])) ∧
    (infer_quantisation_config "databricks/dolly-v2-3b" true false false false
        false "int8" [("llm_int8_threshhold", Value.vrat 5)] =
      Except.ok (QuantConfig.bnbInt8 (Value.vbool true) (Value.vbool false)
        (Value.vrat 5) Value.vnone (Value.vbool false), [])) :=
  ⟨rfl, rfl⟩

end OpenLLM
